import Mathlib

/-!
Verification development for the conversational RAG route handler
(`POST` in src/app/document/[id]/page.tsx) of the pdftochat repository.

The handler is embedded shallowly: the external collaborators (the Clerk
auth check, the TogetherAI chat model used for query rewriting and answer
synthesis, the Pinecone nearest-neighbor search, and JSON/base64
serialization of the source manifest) are opaque functions carried by an
`Env` record, and the handler itself is a pure function from `Env` and a
parsed request body to a pair of (ordered event trace, response).  The
event trace records, in program order, the sequencing points of the real
handler (each `await` of an external call, the resolution of
`documentPromise`, the construction of the serialized sources header, and
the final `return`), so temporal claims become statements about positions
in that list.  All data transformations (message normalization, history
splitting, manifest building, excerpt truncation, header values) are
transcribed from the source.
-/

namespace PdfToChat

/-- A raw caller-supplied turn (`VercelChatMessage` from the `ai` package):
a role tag plus text content. -/
structure VercelChatMessage where
  role : String
  content : String
deriving DecidableEq, Repr

/-- LangChain message variants produced by the history normalizer:
`HumanMessage`, `AIMessage`, and the generic `ChatMessage` which carries
the original role string alongside the content. -/
inductive LCMessage where
  | human : String → LCMessage
  | ai : String → LCMessage
  | chat : String → String → LCMessage
deriving DecidableEq, Repr

/-- Source lines 270-281: `formatVercelMessages`.  Maps a raw turn with
role "user" to `HumanMessage`, role "assistant" to `AIMessage`, and any
other role to a generic `ChatMessage` keeping both content and the
original role string. -/
def formatVercelMessages (message : VercelChatMessage) : LCMessage :=
  if message.role = "user" then LCMessage.human message.content
  else if message.role = "assistant" then LCMessage.ai message.content
  else LCMessage.chat message.content message.role

/-- A retrieved chunk (`Document` from LangChain): page content plus a
metadata mapping.  Content is modelled as a character list so that the
JavaScript `slice(0, 50)` prefix truncation is `List.take 50`. -/
structure Document where
  pageContent : List Char
  metadata : List (String × String)
deriving DecidableEq, Repr

/-- One entry of the source manifest sent in the `x-sources` header:
the shape produced by the mapping at source lines 405-410. -/
structure SourceEntry where
  pageContent : List Char
  metadata : List (String × String)
deriving DecidableEq, Repr

/-- The ellipsis marker appended to every excerpt
(the string literal at source line 407). -/
def ellipsisMarker : List Char := ['.', '.', '.']

/-- Source line 407: one manifest entry from one retrieved chunk:
the first 50 characters of pageContent, then the ellipsis marker, with
the metadata passed through. -/
def sourceEntryOf (doc : Document) : SourceEntry :=
  { pageContent := doc.pageContent.take 50 ++ ellipsisMarker
    metadata := doc.metadata }

/-- Source lines 405-410: the whole manifest is the element-wise map of
`sourceEntryOf` over the captured document list. -/
def sourceManifest (documents : List Document) : List SourceEntry :=
  documents.map sourceEntryOf

/-- The configuration the handler passes to
`PineconeStore.fromExistingIndex` (source lines 342-351): the index handle
and the namespace, which is the request body field `chatId`
(possibly absent, hence `Option`). -/
structure PineconeStoreConfig where
  pineconeIndex : String
  nmspace : Option String
deriving DecidableEq, Repr

/-- The parsed JSON request body: `messages` (absent is read as `[]` by
the `?? []` default at source line 324) and `chatId` (read without any
validation at source line 332, so absent becomes `undefined`). -/
structure RequestBody where
  messages : Option (List VercelChatMessage)
  chatId : Option String
deriving DecidableEq, Repr

/-- The opaque external collaborators of the handler.  Each fallible call
returns `Except String` carrying the thrown error message on failure. -/
structure Env where
  /-- Result of the Clerk `auth()` call: the authenticated user id, if any. -/
  userId : Option String
  /-- The PINECONE_INDEX_NAME environment variable, defaulted to the
  empty string. -/
  pineconeIndexName : String
  /-- The query-rewriting model call made by the history-aware retriever:
  prior history and the new question give a standalone search query. -/
  rephrase : List LCMessage → String → Except String String
  /-- The nearest-neighbor search service: namespace and query give the
  ranked chunk list.  Scoping to the namespace is the collaborator
  contract of the vector index. -/
  search : Option String → String → Except String (List Document)
  /-- The streaming answer-synthesis model call: retrieved chunks, prior
  history and the question give the list of answer fragments. -/
  synthesize : List Document → List LCMessage → String → Except String (List String)
  /-- JSON-stringify plus base64 of the manifest (source lines 403-412). -/
  serializeJson : List SourceEntry → Except String String

/-- The observable sequencing points of one handler run, in program
order.  `retrievalComplete` is the resolution of `documentPromise` by the
`handleRetrieverEnd` callback (source lines 353-368); `manifestBuilt` is
the computation of `serializedSources` after `await documentPromise`
(source lines 402-412); `responseReturned` is the `return
new StreamingTextResponse(...)` at source line 414. -/
inductive Event where
  | authChecked : Event
  | bodyParsed : Event
  | rephraseCall : Event
  | retrievalCall : Option String → String → Event
  | retrievalComplete : List Document → Event
  | synthesisCall : Event
  | streamConstructed : Event
  | manifestBuilt : Event
  | responseReturned : Event
deriving DecidableEq, Repr

/-- The three response shapes the handler can produce: the bare
401 response whose body is the text Unauthorized, the structured JSON
error body with status 500, and the streaming response with its header
list. -/
inductive Resp where
  | plain : String → Nat → Resp
  | json : String → Nat → Resp
  | streaming : List String → List (String × String) → Resp
deriving DecidableEq, Repr

/-- Whether a response is the streaming success response. -/
def isStreamingResp : Resp → Bool
  | Resp.streaming _ _ => true
  | _ => false

/-- Whether an event is an external model, embedding or retrieval call. -/
def isExternalCall : Event → Bool
  | Event.rephraseCall => true
  | Event.retrievalCall _ _ => true
  | Event.synthesisCall => true
  | _ => false

/-- Whether an event is the query-rewriting model call. -/
def isRephraseEvent : Event → Bool
  | Event.rephraseCall => true
  | _ => false

/-- Whether an event is the nearest-neighbor search call. -/
def isRetrievalEvent : Event → Bool
  | Event.retrievalCall _ _ => true
  | _ => false

/-- Whether an event is the answer-synthesis model call. -/
def isSynthesisEvent : Event → Bool
  | Event.synthesisCall => true
  | _ => false

/-- Source lines 342-351: the vector store is constructed over the
Pinecone index with `namespace: chatId`. -/
def storeFor (env : Env) (chatId : Option String) : PineconeStoreConfig :=
  { pineconeIndex := env.pineconeIndexName, nmspace := chatId }

/-- Source lines 315-423: the `POST` handler.  Returns the ordered event
trace together with the response.  The `try`/`catch` at lines 316/420 is
modelled by every thrown error short-circuiting to
`Resp.json message 500`; the auth check at lines 317-321 returns before
the `try` body does anything else. -/
def POST (env : Env) (body : RequestBody) : List Event × Resp :=
  match env.userId with
  | none => ([Event.authChecked], Resp.plain "Unauthorized" 401)
  | some _ =>
    let messages := body.messages.getD []
    if messages.length = 0 then
      ([Event.authChecked, Event.bodyParsed], Resp.json "No messages provided." 500)
    else
      let formattedPreviousMessages := messages.dropLast.map formatVercelMessages
      let currentMessageContent := (messages.getLastD ⟨"", ""⟩).content
      let vectorstore := storeFor env body.chatId
      match env.rephrase formattedPreviousMessages currentMessageContent with
      | Except.error msg =>
        ([Event.authChecked, Event.bodyParsed, Event.rephraseCall],
         Resp.json msg 500)
      | Except.ok query =>
        match env.search vectorstore.nmspace query with
        | Except.error msg =>
          ([Event.authChecked, Event.bodyParsed, Event.rephraseCall,
            Event.retrievalCall vectorstore.nmspace query],
           Resp.json msg 500)
        | Except.ok documents =>
          match env.synthesize documents formattedPreviousMessages currentMessageContent with
          | Except.error msg =>
            ([Event.authChecked, Event.bodyParsed, Event.rephraseCall,
              Event.retrievalCall vectorstore.nmspace query,
              Event.retrievalComplete documents, Event.synthesisCall],
             Resp.json msg 500)
          | Except.ok fragments =>
            match env.serializeJson (sourceManifest documents) with
            | Except.error msg =>
              ([Event.authChecked, Event.bodyParsed, Event.rephraseCall,
                Event.retrievalCall vectorstore.nmspace query,
                Event.retrievalComplete documents, Event.synthesisCall,
                Event.streamConstructed],
               Resp.json msg 500)
            | Except.ok serializedSources =>
              ([Event.authChecked, Event.bodyParsed, Event.rephraseCall,
                Event.retrievalCall vectorstore.nmspace query,
                Event.retrievalComplete documents, Event.synthesisCall,
                Event.streamConstructed, Event.manifestBuilt,
                Event.responseReturned],
               Resp.streaming fragments
                 [("x-message-index", toString (formattedPreviousMessages.length + 1)),
                  ("x-sources", serializedSources)])

/-- Event `e₁` occurs strictly before event `e₂` in trace `tr`. -/
def precedes (tr : List Event) (e₁ e₂ : Event) : Prop :=
  ∃ i j : Nat, i < j ∧ tr[i]? = some e₁ ∧ tr[j]? = some e₂

/-! ### Concrete fixtures used by witnesses and counterexamples -/

/-- A retrieved chunk whose content is longer than 50 characters. -/
def sampleDoc : Document :=
  { pageContent :=
      ("This legal case concerns a contract dispute between two parties.").toList
    metadata := [("page", "1")] }

/-- A chunk that the sample search service never returns: it stands for a
document indexed only under a different namespace. -/
def otherDoc : Document :=
  { pageContent := ("Chunk indexed under another namespace.").toList
    metadata := [("page", "9")] }

/-- A chunk whose content is shorter than 50 characters. -/
def shortDoc : Document := { pageContent := "hi".toList, metadata := [] }

/-- An environment in which every collaborator succeeds. -/
def okEnv : Env :=
  { userId := some "user_1"
    pineconeIndexName := "pdftochat"
    rephrase := fun _ input => Except.ok input
    search := fun _ _ => Except.ok [sampleDoc]
    synthesize := fun _ _ _ => Except.ok ["The case ", "concerns a contract dispute."]
    serializeJson := fun entries => Except.ok (toString entries.length) }

/-- The same environment with no authenticated user. -/
def unauthEnv : Env := { okEnv with userId := none }

/-- The same environment with a failing query-rewriting model call. -/
def rephraseFailEnv : Env :=
  { okEnv with rephrase := fun _ _ => Except.error "model unavailable" }

/-- The same environment with a failing nearest-neighbor search call. -/
def searchFailEnv : Env :=
  { okEnv with search := fun _ _ => Except.error "namespace not found" }

/-- A well-formed request body with one message. -/
def sampleBody : RequestBody :=
  { messages := some [{ role := "user", content := "What is this case about?" }]
    chatId := some "chat_42" }

/-- A request body with no messages. -/
def emptyBody : RequestBody := { messages := none, chatId := some "chat_42" }

/-- The message list of the sample request. -/
def sampleMsgs : List VercelChatMessage :=
  [{ role := "user", content := "What is this case about?" }]

/-- A well-formed request body that carries no `chatId` field. -/
def noChatIdBody : RequestBody :=
  { messages := some sampleMsgs, chatId := none }

/-! ### Helper lemmas shared by the claim theorems -/

/-- If a run of `POST` produced the streaming success response, then the
run went through every pipeline stage: the caller was authenticated, the
message list was non-empty, rewriting, retrieval, synthesis and
serialization all succeeded, the headers are exactly the two computed
ones, and the trace is the full success trace. -/
theorem POST_streaming_elim (env : Env) (body : RequestBody)
    (fragments : List String) (headers : List (String × String))
    (h : (POST env body).2 = Resp.streaming fragments headers) :
    ∃ u query documents serialized,
      env.userId = some u ∧
      (body.messages.getD []).length ≠ 0 ∧
      env.rephrase ((body.messages.getD []).dropLast.map formatVercelMessages)
        ((body.messages.getD []).getLastD ⟨"", ""⟩).content = Except.ok query ∧
      env.search body.chatId query = Except.ok documents ∧
      env.synthesize documents
        ((body.messages.getD []).dropLast.map formatVercelMessages)
        ((body.messages.getD []).getLastD ⟨"", ""⟩).content = Except.ok fragments ∧
      env.serializeJson (sourceManifest documents) = Except.ok serialized ∧
      headers =
        [("x-message-index",
          toString (((body.messages.getD []).dropLast.map formatVercelMessages).length + 1)),
         ("x-sources", serialized)] ∧
      (POST env body).1 =
        [Event.authChecked, Event.bodyParsed, Event.rephraseCall,
         Event.retrievalCall body.chatId query, Event.retrievalComplete documents,
         Event.synthesisCall, Event.streamConstructed, Event.manifestBuilt,
         Event.responseReturned] := by
  cases hu : env.userId with
  | none =>
    simp only [POST, hu] at h
    exact Resp.noConfusion h
  | some u =>
    by_cases hm : (body.messages.getD []).length = 0
    · simp only [POST, hu, if_pos hm] at h
      exact Resp.noConfusion h
    · cases hr : env.rephrase ((body.messages.getD []).dropLast.map formatVercelMessages)
          ((body.messages.getD []).getLastD ⟨"", ""⟩).content with
      | error msg =>
        simp only [POST, hu, if_neg hm, storeFor, hr] at h
        exact Resp.noConfusion h
      | ok query =>
        cases hs : env.search body.chatId query with
        | error msg =>
          simp only [POST, hu, if_neg hm, storeFor, hr, hs] at h
          exact Resp.noConfusion h
        | ok documents =>
          cases hy : env.synthesize documents
              ((body.messages.getD []).dropLast.map formatVercelMessages)
              ((body.messages.getD []).getLastD ⟨"", ""⟩).content with
          | error msg =>
            simp only [POST, hu, if_neg hm, storeFor, hr, hs, hy] at h
            exact Resp.noConfusion h
          | ok fragments0 =>
            cases hj : env.serializeJson (sourceManifest documents) with
            | error msg =>
              simp only [POST, hu, if_neg hm, storeFor, hr, hs, hy, hj] at h
              exact Resp.noConfusion h
            | ok serialized =>
              simp only [POST, hu, if_neg hm, storeFor, hr, hs, hy, hj,
                Resp.streaming.injEq] at h
              obtain ⟨hf, hh⟩ := h
              subst hf
              refine ⟨u, query, documents, serialized, rfl, hm, rfl, hs, hy, hj, hh.symm, ?_⟩
              simp only [POST, hu, if_neg hm, storeFor, hr, hs, hy, hj]

/-- Complete case analysis of one handler run: every run is the
unauthorized exit, the empty-message validation failure, a failure of one
of the four fallible pipeline stages, or the streaming success, each with
its exact trace and response. -/
theorem POST_cases (env : Env) (body : RequestBody) :
    (env.userId = none ∧
      POST env body = ([Event.authChecked], Resp.plain "Unauthorized" 401)) ∨
    ((∃ u, env.userId = some u) ∧ (body.messages.getD []).length = 0 ∧
      POST env body =
        ([Event.authChecked, Event.bodyParsed], Resp.json "No messages provided." 500)) ∨
    ((∃ u, env.userId = some u) ∧ (body.messages.getD []).length ≠ 0 ∧
      ∃ msg,
        env.rephrase ((body.messages.getD []).dropLast.map formatVercelMessages)
          ((body.messages.getD []).getLastD ⟨"", ""⟩).content = Except.error msg ∧
        POST env body =
          ([Event.authChecked, Event.bodyParsed, Event.rephraseCall],
           Resp.json msg 500)) ∨
    ((∃ u, env.userId = some u) ∧ (body.messages.getD []).length ≠ 0 ∧
      ∃ query msg,
        env.rephrase ((body.messages.getD []).dropLast.map formatVercelMessages)
          ((body.messages.getD []).getLastD ⟨"", ""⟩).content = Except.ok query ∧
        env.search body.chatId query = Except.error msg ∧
        POST env body =
          ([Event.authChecked, Event.bodyParsed, Event.rephraseCall,
            Event.retrievalCall body.chatId query],
           Resp.json msg 500)) ∨
    ((∃ u, env.userId = some u) ∧ (body.messages.getD []).length ≠ 0 ∧
      ∃ query documents msg,
        env.rephrase ((body.messages.getD []).dropLast.map formatVercelMessages)
          ((body.messages.getD []).getLastD ⟨"", ""⟩).content = Except.ok query ∧
        env.search body.chatId query = Except.ok documents ∧
        env.synthesize documents ((body.messages.getD []).dropLast.map formatVercelMessages)
          ((body.messages.getD []).getLastD ⟨"", ""⟩).content = Except.error msg ∧
        POST env body =
          ([Event.authChecked, Event.bodyParsed, Event.rephraseCall,
            Event.retrievalCall body.chatId query, Event.retrievalComplete documents,
            Event.synthesisCall],
           Resp.json msg 500)) ∨
    ((∃ u, env.userId = some u) ∧ (body.messages.getD []).length ≠ 0 ∧
      ∃ query documents fragments msg,
        env.rephrase ((body.messages.getD []).dropLast.map formatVercelMessages)
          ((body.messages.getD []).getLastD ⟨"", ""⟩).content = Except.ok query ∧
        env.search body.chatId query = Except.ok documents ∧
        env.synthesize documents ((body.messages.getD []).dropLast.map formatVercelMessages)
          ((body.messages.getD []).getLastD ⟨"", ""⟩).content = Except.ok fragments ∧
        env.serializeJson (sourceManifest documents) = Except.error msg ∧
        POST env body =
          ([Event.authChecked, Event.bodyParsed, Event.rephraseCall,
            Event.retrievalCall body.chatId query, Event.retrievalComplete documents,
            Event.synthesisCall, Event.streamConstructed],
           Resp.json msg 500)) ∨
    ((∃ u, env.userId = some u) ∧ (body.messages.getD []).length ≠ 0 ∧
      ∃ query documents fragments serialized,
        env.rephrase ((body.messages.getD []).dropLast.map formatVercelMessages)
          ((body.messages.getD []).getLastD ⟨"", ""⟩).content = Except.ok query ∧
        env.search body.chatId query = Except.ok documents ∧
        env.synthesize documents ((body.messages.getD []).dropLast.map formatVercelMessages)
          ((body.messages.getD []).getLastD ⟨"", ""⟩).content = Except.ok fragments ∧
        env.serializeJson (sourceManifest documents) = Except.ok serialized ∧
        POST env body =
          ([Event.authChecked, Event.bodyParsed, Event.rephraseCall,
            Event.retrievalCall body.chatId query, Event.retrievalComplete documents,
            Event.synthesisCall, Event.streamConstructed, Event.manifestBuilt,
            Event.responseReturned],
           Resp.streaming fragments
             [("x-message-index",
               toString (((body.messages.getD []).dropLast.map formatVercelMessages).length + 1)),
              ("x-sources", serialized)])) := by
  cases hu : env.userId with
  | none =>
    exact Or.inl ⟨rfl, by simp only [POST, hu]⟩
  | some u =>
    by_cases hm : (body.messages.getD []).length = 0
    · exact Or.inr (Or.inl ⟨⟨u, rfl⟩, hm, by simp only [POST, hu, if_pos hm]⟩)
    · cases hr : env.rephrase ((body.messages.getD []).dropLast.map formatVercelMessages)
          ((body.messages.getD []).getLastD ⟨"", ""⟩).content with
      | error msg =>
        refine Or.inr (Or.inr (Or.inl ⟨⟨u, rfl⟩, hm, msg, rfl, ?_⟩))
        simp only [POST, hu, if_neg hm, storeFor, hr]
      | ok query =>
        cases hs : env.search body.chatId query with
        | error msg =>
          refine Or.inr (Or.inr (Or.inr (Or.inl ⟨⟨u, rfl⟩, hm, query, msg, rfl, hs, ?_⟩)))
          simp only [POST, hu, if_neg hm, storeFor, hr, hs]
        | ok documents =>
          cases hy : env.synthesize documents
              ((body.messages.getD []).dropLast.map formatVercelMessages)
              ((body.messages.getD []).getLastD ⟨"", ""⟩).content with
          | error msg =>
            refine Or.inr (Or.inr (Or.inr (Or.inr (Or.inl
              ⟨⟨u, rfl⟩, hm, query, documents, msg, rfl, hs, hy, ?_⟩))))
            simp only [POST, hu, if_neg hm, storeFor, hr, hs, hy]
          | ok fragments =>
            cases hj : env.serializeJson (sourceManifest documents) with
            | error msg =>
              refine Or.inr (Or.inr (Or.inr (Or.inr (Or.inr (Or.inl
                ⟨⟨u, rfl⟩, hm, query, documents, fragments, msg, rfl, hs, hy, hj, ?_⟩)))))
              simp only [POST, hu, if_neg hm, storeFor, hr, hs, hy, hj]
            | ok serialized =>
              refine Or.inr (Or.inr (Or.inr (Or.inr (Or.inr (Or.inr
                ⟨⟨u, rfl⟩, hm, query, documents, fragments, serialized, rfl, hs, hy, hj, ?_⟩)))))
              simp only [POST, hu, if_neg hm, storeFor, hr, hs, hy, hj]

/-! ### Claim theorems -/

/-- C1: for every request that produced the streaming response, retrieval
had fully completed and the serialized source manifest had been built
strictly before the response was returned to the caller: in the run trace
the retrieval-completion and manifest-construction events precede the
response-return event, and the returned headers carry the serialization
of the manifest of exactly the retrieved documents, even though answer
fragments are delivered afterward. -/
theorem C1_retrieval_and_manifest_before_response (env : Env) (body : RequestBody)
    (fragments : List String) (headers : List (String × String))
    (h : (POST env body).2 = Resp.streaming fragments headers) :
    ∃ documents serialized,
      precedes (POST env body).1 (Event.retrievalComplete documents)
        Event.responseReturned ∧
      precedes (POST env body).1 Event.manifestBuilt Event.responseReturned ∧
      env.serializeJson (sourceManifest documents) = Except.ok serialized ∧
      ("x-sources", serialized) ∈ headers := by
  obtain ⟨u, query, documents, serialized, hau, hm, hr, hs, hy, hj, hh, ht⟩ :=
    POST_streaming_elim env body fragments headers h
  refine ⟨documents, serialized, ?_, ?_, hj, ?_⟩
  · exact ⟨4, 8, by omega, by rw [ht]; rfl, by rw [ht]; rfl⟩
  · exact ⟨7, 8, by omega, by rw [ht]; rfl, by rw [ht]; rfl⟩
  · rw [hh]; simp

/-- Witness for C1 at a concrete successful run. -/
theorem C1_witness :
    ∃ documents serialized,
      precedes (POST okEnv sampleBody).1 (Event.retrievalComplete documents)
        Event.responseReturned ∧
      precedes (POST okEnv sampleBody).1 Event.manifestBuilt Event.responseReturned ∧
      okEnv.serializeJson (sourceManifest documents) = Except.ok serialized ∧
      ("x-sources", serialized) ∈ [("x-message-index", "1"), ("x-sources", "1")] :=
  C1_retrieval_and_manifest_before_response okEnv sampleBody
    ["The case ", "concerns a contract dispute."]
    [("x-message-index", "1"), ("x-sources", "1")] (by rfl)

/-- C2: the vector store of a run is constructed with the namespace equal
to the request body chatId, every nearest-neighbor search issued during
the run is scoped to that namespace, and hence a document the
chatId-scoped search never returns is never retrieved. -/
theorem C2_namespace_isolation (env : Env) (body : RequestBody) (d : Document)
    (hnever : ∀ query documents,
      env.search body.chatId query = Except.ok documents → d ∉ documents) :
    (storeFor env body.chatId).nmspace = body.chatId ∧
    (∀ ns query, Event.retrievalCall ns query ∈ (POST env body).1 →
      ns = body.chatId) ∧
    (∀ documents, Event.retrievalComplete documents ∈ (POST env body).1 →
      d ∉ documents) := by
  refine ⟨rfl, ?_, ?_⟩
  · intro ns query hmem
    rcases POST_cases env body with
      ⟨_, ht⟩ | ⟨_, _, ht⟩ | ⟨_, _, msg, hr, ht⟩ | ⟨_, _, q, msg, hr, hs, ht⟩ |
      ⟨_, _, q, docs, msg, hr, hs, hy, ht⟩ |
      ⟨_, _, q, docs, frs, msg, hr, hs, hy, hj, ht⟩ |
      ⟨_, _, q, docs, frs, ser, hr, hs, hy, hj, ht⟩ <;>
      rw [ht] at hmem <;> simp at hmem <;> exact hmem.1
  · intro documents hmem
    rcases POST_cases env body with
      ⟨_, ht⟩ | ⟨_, _, ht⟩ | ⟨_, _, msg, hr, ht⟩ | ⟨_, _, q, msg, hr, hs, ht⟩ |
      ⟨_, _, q, docs, msg, hr, hs, hy, ht⟩ |
      ⟨_, _, q, docs, frs, msg, hr, hs, hy, hj, ht⟩ |
      ⟨_, _, q, docs, frs, ser, hr, hs, hy, hj, ht⟩ <;>
      rw [ht] at hmem <;> simp at hmem <;>
      (subst hmem; exact hnever _ _ hs)

/-- Witness for C2: a document the sample search never returns is not
retrieved in the sample run. -/
theorem C2_witness :
    (storeFor okEnv sampleBody.chatId).nmspace = sampleBody.chatId ∧
    (∀ ns query, Event.retrievalCall ns query ∈ (POST okEnv sampleBody).1 →
      ns = sampleBody.chatId) ∧
    (∀ documents, Event.retrievalComplete documents ∈ (POST okEnv sampleBody).1 →
      otherDoc ∉ documents) :=
  C2_namespace_isolation okEnv sampleBody otherDoc
    (by intro q docs hq; injection hq with hq; subst hq; decide)

/-- C3: for every successful request the source manifest has exactly one
entry per chunk returned by retrieval, in retrieval order: its length
equals the retrieved document count and its i-th entry is derived from
the i-th retrieved document. -/
theorem C3_manifest_length_and_order (env : Env) (body : RequestBody)
    (fragments : List String) (headers : List (String × String))
    (h : (POST env body).2 = Resp.streaming fragments headers) :
    ∃ documents serialized,
      Event.retrievalComplete documents ∈ (POST env body).1 ∧
      env.serializeJson (sourceManifest documents) = Except.ok serialized ∧
      ("x-sources", serialized) ∈ headers ∧
      (sourceManifest documents).length = documents.length ∧
      ∀ i : Nat, (sourceManifest documents)[i]? = documents[i]?.map sourceEntryOf := by
  obtain ⟨u, query, documents, serialized, hau, hm, hr, hs, hy, hj, hh, ht⟩ :=
    POST_streaming_elim env body fragments headers h
  refine ⟨documents, serialized, ?_, hj, ?_, ?_, ?_⟩
  · rw [ht]; simp
  · rw [hh]; simp
  · simp [sourceManifest]
  · intro i; simp [sourceManifest, List.getElem?_map]

/-- Witness for C3 at a concrete successful run. -/
theorem C3_witness :
    ∃ documents serialized,
      Event.retrievalComplete documents ∈ (POST okEnv sampleBody).1 ∧
      okEnv.serializeJson (sourceManifest documents) = Except.ok serialized ∧
      ("x-sources", serialized) ∈ [("x-message-index", "1"), ("x-sources", "1")] ∧
      (sourceManifest documents).length = documents.length ∧
      ∀ i : Nat, (sourceManifest documents)[i]? = documents[i]?.map sourceEntryOf :=
  C3_manifest_length_and_order okEnv sampleBody
    ["The case ", "concerns a contract dispute."]
    [("x-message-index", "1"), ("x-sources", "1")] (by rfl)

/-- C4 counterexample: the claim says the excerpt itself is a prefix of
the chunk content, but the code appends the ellipsis marker
unconditionally, so for a chunk with content "hi" the excerpt is
"hi..." which is not a prefix of "hi". -/
theorem C4_counterexample :
    ¬ (sourceEntryOf shortDoc).pageContent <+: shortDoc.pageContent := by
  decide

/-- C4 (amended): every manifest excerpt is a prefix of the chunk content
of at most 50 characters followed by the ellipsis marker — so the excerpt
with the marker removed is a prefix of the content and the total excerpt
length is at most 50 plus the marker length — and the metadata mapping is
passed through unchanged. -/
theorem C4_excerpt_truncation (doc : Document) :
    (sourceEntryOf doc).pageContent = doc.pageContent.take 50 ++ ellipsisMarker ∧
    doc.pageContent.take 50 <+: doc.pageContent ∧
    (doc.pageContent.take 50).length ≤ 50 ∧
    (sourceEntryOf doc).pageContent.length ≤ 50 + ellipsisMarker.length ∧
    (sourceEntryOf doc).metadata = doc.metadata := by
  have htake : (doc.pageContent.take 50).length ≤ 50 := by
    simp [List.length_take]
  refine ⟨rfl, List.take_prefix _ _, htake, ?_, rfl⟩
  simp only [sourceEntryOf, List.length_append]
  exact Nat.add_le_add_right htake _

/-- C5 counterexample: for an unauthenticated request the handler returns
status 401 but with the literal body "Unauthorized" — the response body is
not empty as the claim states. -/
theorem C5_counterexample :
    (POST unauthEnv sampleBody).2 = Resp.plain "Unauthorized" 401 ∧
    "Unauthorized" ≠ "" :=
  ⟨rfl, by decide⟩

/-- C5 (amended): for every unauthenticated request the handler returns
status 401 with the fixed plain-text body "Unauthorized" (not an empty
body and not the structured error envelope), and no pipeline component
runs: the trace records only the auth check, so there is no body parsing
and no external model or retrieval call before the unauthorized return. -/
theorem C5_unauthorized_short_circuit (env : Env) (body : RequestBody)
    (h : env.userId = none) :
    POST env body = ([Event.authChecked], Resp.plain "Unauthorized" 401) ∧
    (∀ e ∈ (POST env body).1, e = Event.authChecked) ∧
    (POST env body).1.countP isExternalCall = 0 := by
  have ht : POST env body = ([Event.authChecked], Resp.plain "Unauthorized" 401) := by
    simp only [POST, h]
  refine ⟨ht, ?_, ?_⟩
  · intro e he; rw [ht] at he; simpa using he
  · rw [ht]; rfl

/-- Witness for C5 (amended) at a concrete unauthenticated run. -/
theorem C5_witness :
    POST unauthEnv sampleBody = ([Event.authChecked], Resp.plain "Unauthorized" 401) ∧
    (∀ e ∈ (POST unauthEnv sampleBody).1, e = Event.authChecked) ∧
    (POST unauthEnv sampleBody).1.countP isExternalCall = 0 :=
  C5_unauthorized_short_circuit unauthEnv sampleBody rfl

/-- C6: for every authenticated request whose message list is empty or
absent, the handler fails with the validation error, surfaced as the
structured error response, and no external model, embedding or retrieval
call is issued. -/
theorem C6_empty_messages_validation (env : Env) (body : RequestBody) (u : String)
    (hauth : env.userId = some u) (hempty : body.messages.getD [] = []) :
    POST env body =
      ([Event.authChecked, Event.bodyParsed], Resp.json "No messages provided." 500) ∧
    (POST env body).1.countP isExternalCall = 0 := by
  have hm : (body.messages.getD []).length = 0 := by rw [hempty]; rfl
  have ht : POST env body =
      ([Event.authChecked, Event.bodyParsed], Resp.json "No messages provided." 500) := by
    simp only [POST, hauth, if_pos hm]
  exact ⟨ht, by rw [ht]; rfl⟩

/-- Witness for C6 at a concrete authenticated run with no messages. -/
theorem C6_witness :
    POST okEnv emptyBody =
      ([Event.authChecked, Event.bodyParsed], Resp.json "No messages provided." 500) ∧
    (POST okEnv emptyBody).1.countP isExternalCall = 0 :=
  C6_empty_messages_validation okEnv emptyBody "user_1" rfl rfl

/-- C7 counterexample: three different failure kinds — the empty-message
validation failure, a failing rewriting model call, and a failing
retrieval call — all produce the same status 500, so the status of the
structured error response is constant and does not reflect the failure
kind as the claim states. -/
theorem C7_counterexample :
    (POST okEnv emptyBody).2 = Resp.json "No messages provided." 500 ∧
    (POST rephraseFailEnv sampleBody).2 = Resp.json "model unavailable" 500 ∧
    (POST searchFailEnv sampleBody).2 = Resp.json "namespace not found" 500 :=
  ⟨rfl, rfl, rfl⟩

/-- C7 (amended): every failure other than the auth check that occurs
before the streaming response is committed is caught at the handler
boundary and surfaced as the non-streaming structured body
with the thrown message and the constant status 500 (the status does not
vary with the failure kind), and no failed operation is retried: each of
the rewriting, retrieval and synthesis calls appears at most once in the
trace. -/
theorem C7_failures_caught_constant_status (env : Env) (body : RequestBody)
    (u : String) (hauth : env.userId = some u)
    (hfail : isStreamingResp (POST env body).2 = false) :
    (∃ msg, (POST env body).2 = Resp.json msg 500) ∧
    (POST env body).1.countP isRephraseEvent ≤ 1 ∧
    (POST env body).1.countP isRetrievalEvent ≤ 1 ∧
    (POST env body).1.countP isSynthesisEvent ≤ 1 := by
  rcases POST_cases env body with
    ⟨hn, ht⟩ | ⟨_, _, ht⟩ | ⟨_, _, msg, hr, ht⟩ | ⟨_, _, q, msg, hr, hs, ht⟩ |
    ⟨_, _, q, docs, msg, hr, hs, hy, ht⟩ |
    ⟨_, _, q, docs, frs, msg, hr, hs, hy, hj, ht⟩ |
    ⟨_, _, q, docs, frs, ser, hr, hs, hy, hj, ht⟩
  · rw [hn] at hauth; exact Option.noConfusion hauth
  all_goals try
    exact ⟨⟨_, by rw [ht]⟩,
      by rw [ht]; simp [List.countP_cons, List.countP_nil,
        isRephraseEvent, isRetrievalEvent, isSynthesisEvent],
      by rw [ht]; simp [List.countP_cons, List.countP_nil,
        isRephraseEvent, isRetrievalEvent, isSynthesisEvent],
      by rw [ht]; simp [List.countP_cons, List.countP_nil,
        isRephraseEvent, isRetrievalEvent, isSynthesisEvent]⟩
  rw [ht] at hfail; exact Bool.noConfusion hfail

/-- Witness for C7 (amended) at a concrete run with a failing retrieval
call. -/
theorem C7_witness :
    (∃ msg, (POST searchFailEnv sampleBody).2 = Resp.json msg 500) ∧
    (POST searchFailEnv sampleBody).1.countP isRephraseEvent ≤ 1 ∧
    (POST searchFailEnv sampleBody).1.countP isRetrievalEvent ≤ 1 ∧
    (POST searchFailEnv sampleBody).1.countP isSynthesisEvent ≤ 1 :=
  C7_failures_caught_constant_status searchFailEnv sampleBody "user_1" rfl rfl

/-- C8: the history normalizer maps a turn whose role tag is neither
"user" nor "assistant" to the generic labeled turn preserving the
original role string and the content unchanged, maps "user" and
"assistant" tags to their typed turns, and drops no turn (the normalized
sequence has the same length as the input). -/
theorem C8_history_normalizer (m : VercelChatMessage)
    (hu : m.role ≠ "user") (ha : m.role ≠ "assistant") :
    formatVercelMessages m = LCMessage.chat m.content m.role ∧
    (∀ m2 : VercelChatMessage, m2.role = "user" →
      formatVercelMessages m2 = LCMessage.human m2.content) ∧
    (∀ m2 : VercelChatMessage, m2.role = "assistant" →
      formatVercelMessages m2 = LCMessage.ai m2.content) ∧
    (∀ msgs : List VercelChatMessage,
      (msgs.map formatVercelMessages).length = msgs.length) := by
  refine ⟨?_, ?_, ?_, ?_⟩
  · simp [formatVercelMessages, hu, ha]
  · intro m2 h2; simp [formatVercelMessages, h2]
  · intro m2 h2
    have hnu : m2.role ≠ "user" := by rw [h2]; decide
    simp [formatVercelMessages, h2, hnu]
  · intro msgs; simp

/-- Witness for C8 at a concrete turn with an unrecognized role tag. -/
theorem C8_witness :
    formatVercelMessages ⟨"system", "Be helpful."⟩ =
      LCMessage.chat "Be helpful." "system" ∧
    (∀ m2 : VercelChatMessage, m2.role = "user" →
      formatVercelMessages m2 = LCMessage.human m2.content) ∧
    (∀ m2 : VercelChatMessage, m2.role = "assistant" →
      formatVercelMessages m2 = LCMessage.ai m2.content) ∧
    (∀ msgs : List VercelChatMessage,
      (msgs.map formatVercelMessages).length = msgs.length) :=
  C8_history_normalizer ⟨"system", "Be helpful."⟩ (by decide) (by decide)

/-- C9: for every successful request the x-message-index header value is
the number of prior turns supplied plus one, which equals the total turn
count including the new user turn. -/
theorem C9_message_index (env : Env) (body : RequestBody)
    (fragments : List String) (headers : List (String × String))
    (h : (POST env body).2 = Resp.streaming fragments headers) :
    ("x-message-index",
      toString ((body.messages.getD []).dropLast.length + 1)) ∈ headers ∧
    (body.messages.getD []).dropLast.length + 1 = (body.messages.getD []).length := by
  obtain ⟨u, query, documents, serialized, hau, hm, hr, hs, hy, hj, hh, ht⟩ :=
    POST_streaming_elim env body fragments headers h
  constructor
  · rw [hh]; simp [List.length_map]
  · have hd := List.length_dropLast (body.messages.getD [])
    omega

/-- Witness for C9 at a concrete successful run with one prior turn
count of zero: the header value is "1", the total turn count. -/
theorem C9_witness :
    ("x-message-index",
      toString ((sampleBody.messages.getD []).dropLast.length + 1)) ∈
      [("x-message-index", "1"), ("x-sources", "1")] ∧
    (sampleBody.messages.getD []).dropLast.length + 1 =
      (sampleBody.messages.getD []).length :=
  C9_message_index okEnv sampleBody
    ["The case ", "concerns a contract dispute."]
    [("x-message-index", "1"), ("x-sources", "1")] (by rfl)

/-- C10: an authenticated request with a non-empty message list but no
chatId field is not rejected: no validation error is raised — the
rewriting call is issued — the vector store is built with the undefined
(none) namespace, every search of the run is scoped to that undefined
namespace, and when rewriting succeeds the retrieval call with namespace
none is actually issued. -/
theorem C10_missing_chatId_proceeds (env : Env) (msgs : List VercelChatMessage)
    (u : String) (hauth : env.userId = some u) (hne : msgs ≠ []) :
    Event.rephraseCall ∈
      (POST env { messages := some msgs, chatId := none }).1 ∧
    (storeFor env ({ messages := some msgs, chatId := none } : RequestBody).chatId).nmspace
      = none ∧
    (∀ ns q, Event.retrievalCall ns q ∈
      (POST env { messages := some msgs, chatId := none }).1 → ns = none) ∧
    (∀ q, env.rephrase (msgs.dropLast.map formatVercelMessages)
        (msgs.getLastD ⟨"", ""⟩).content = Except.ok q →
      Event.retrievalCall none q ∈
        (POST env { messages := some msgs, chatId := none }).1) := by
  have hm : (({ messages := some msgs, chatId := none } : RequestBody).messages.getD
      []).length ≠ 0 := by
    simpa using fun h => hne (List.length_eq_zero.mp h)
  rcases POST_cases env { messages := some msgs, chatId := none } with
    ⟨hn, ht⟩ | ⟨_, hm0, ht⟩ | ⟨_, _, msg, hr, ht⟩ | ⟨_, _, q, msg, hr, hs, ht⟩ |
    ⟨_, _, q, docs, msg, hr, hs, hy, ht⟩ |
    ⟨_, _, q, docs, frs, msg, hr, hs, hy, hj, ht⟩ |
    ⟨_, _, q, docs, frs, ser, hr, hs, hy, hj, ht⟩
  · rw [hn] at hauth; exact Option.noConfusion hauth
  · exact absurd hm0 hm
  · simp only [Option.getD_some] at hr
    refine ⟨by rw [ht]; simp, rfl, fun ns q2 hmem => ?_, fun q2 hq => ?_⟩
    · rw [ht] at hmem; simp at hmem
    · rw [hq] at hr; exact Except.noConfusion hr
  · simp only [Option.getD_some] at hr
    refine ⟨by rw [ht]; simp, rfl, fun ns q2 hmem => ?_, fun q2 hq => ?_⟩
    · rw [ht] at hmem; simp at hmem; exact hmem.1
    · rw [hq] at hr; injection hr with hr; subst hr; rw [ht]; simp
  · simp only [Option.getD_some] at hr
    refine ⟨by rw [ht]; simp, rfl, fun ns q2 hmem => ?_, fun q2 hq => ?_⟩
    · rw [ht] at hmem; simp at hmem; exact hmem.1
    · rw [hq] at hr; injection hr with hr; subst hr; rw [ht]; simp
  · simp only [Option.getD_some] at hr
    refine ⟨by rw [ht]; simp, rfl, fun ns q2 hmem => ?_, fun q2 hq => ?_⟩
    · rw [ht] at hmem; simp at hmem; exact hmem.1
    · rw [hq] at hr; injection hr with hr; subst hr; rw [ht]; simp
  · simp only [Option.getD_some] at hr
    refine ⟨by rw [ht]; simp, rfl, fun ns q2 hmem => ?_, fun q2 hq => ?_⟩
    · rw [ht] at hmem; simp at hmem; exact hmem.1
    · rw [hq] at hr; injection hr with hr; subst hr; rw [ht]; simp

/-- Witness for C10 at a concrete authenticated run without a chatId. -/
theorem C10_witness :
    Event.rephraseCall ∈ (POST okEnv noChatIdBody).1 ∧
    (storeFor okEnv noChatIdBody.chatId).nmspace = none ∧
    (∀ ns q, Event.retrievalCall ns q ∈ (POST okEnv noChatIdBody).1 →
      ns = none) ∧
    (∀ q, okEnv.rephrase (sampleMsgs.dropLast.map formatVercelMessages)
        (sampleMsgs.getLastD ⟨"", ""⟩).content = Except.ok q →
      Event.retrievalCall none q ∈ (POST okEnv noChatIdBody).1) :=
  C10_missing_chatId_proceeds okEnv sampleMsgs "user_1" rfl (by decide)

end PdfToChat
